import Mathlib

/-!
Verification of the special-relativity simulation core (src/src/App.jsx).

The kinematics engine (gamma, lengthContraction, timeDilation) works on JS
floating-point numbers; it is embedded here over the reals. The velocity
mapper and the clock state machine use only rational arithmetic, so they are
embedded over the rationals, keeping them executable. Timestamps are in
milliseconds, as delivered by the host animation callback; `elapsedTime` is
in seconds (the source divides each delta by 1000).
-/

/-- Kinematics engine, App.jsx line 17: `gamma = 1 / Math.sqrt(1 - velocity * velocity)`. -/
noncomputable def gamma (velocity : ℝ) : ℝ := 1 / Real.sqrt (1 - velocity * velocity)

/-- App.jsx line 18: `lengthContraction = 1 / gamma`. -/
noncomputable def lengthContraction (velocity : ℝ) : ℝ := 1 / gamma velocity

/-- App.jsx line 19: `timeDilation = gamma`. -/
noncomputable def timeDilation (velocity : ℝ) : ℝ := gamma velocity

/-- The clock-related component state: `elapsedTime` (seconds, `useState(0)`),
`isRunning` (`useState(false)`), and `lastTime` for `lastTimeRef`
(`useRef(0)`; the source clears it by writing 0, and tests it for truthiness,
so 0 doubles as the cleared marker). -/
structure ClockState where
  elapsedTime : ℚ
  isRunning : Bool
  lastTime : ℚ
  deriving DecidableEq, Repr

/-- The initial component state: `useState(0)`, `useState(false)`, `useRef(0)`. -/
def initialState : ClockState := ⟨0, false, 0⟩

/-- App.jsx lines 64-73, the body of `animate(timestamp)`:
`if (!lastTimeRef.current) lastTimeRef.current = timestamp;`
`const deltaTime = timestamp - lastTimeRef.current;`
`lastTimeRef.current = timestamp;`
`setElapsedTime(prev => prev + deltaTime / 1000);`
The truthiness test `!lastTimeRef.current` is the comparison with 0. -/
def animate (timestamp : ℚ) (s : ClockState) : ClockState :=
  let last := if s.lastTime = 0 then timestamp else s.lastTime
  let deltaTime := timestamp - last
  { s with elapsedTime := s.elapsedTime + deltaTime / 1000, lastTime := timestamp }

/-- App.jsx lines 85-91, `toggleAnimation`: when running, cancel the frame,
clear `lastTimeRef` and flip `isRunning` to false; when idle, flip it to true
(the frame cancellation is host-level and carries no model state). -/
def toggleAnimation (s : ClockState) : ClockState :=
  if s.isRunning then { s with isRunning := false, lastTime := 0 }
  else { s with isRunning := true }

/-- App.jsx lines 94-99, `resetSimulation`: stop, zero the elapsed time,
clear `lastTimeRef`. -/
def resetSimulation (_s : ClockState) : ClockState := ⟨0, false, 0⟩

/-- Delivering a sequence of animation callbacks, oldest first. -/
def ticksRun (l : List ℚ) (s : ClockState) : ClockState :=
  l.foldl (fun st ts => animate ts st) s

/-- App.jsx line 106: `movingTime = elapsedTime / timeDilation` (the
`toFixed(2)` applied afterwards is presentation-layer formatting). It is a
read-time function of the clock state and the velocity current at the read. -/
noncomputable def movingTime (s : ClockState) (velocity : ℝ) : ℝ :=
  (s.elapsedTime : ℝ) / timeDilation velocity

/-- Velocity mapper, App.jsx lines 22-43: the body of the slider-to-velocity
effect. Logarithmic: `0.9 + (0.9999 - 0.9) * (1 - (1 - sliderValue)^4)`;
linear: `0.1 + (0.9 - 0.1) * sliderValue`. -/
def vmap (useLogarithmic : Bool) (sliderValue : ℚ) : ℚ :=
  if useLogarithmic then
    9/10 + (9999/10000 - 9/10) * (1 - (1 - sliderValue)^4)
  else
    1/10 + (9/10 - 1/10) * sliderValue

/-- The non-presentation component state: raw slider position, scale mode,
derived velocity, and the clock fields. -/
structure SimState where
  sliderValue : ℚ
  useLogarithmic : Bool
  velocity : ℚ
  clock : ClockState
  deriving DecidableEq, Repr

/-- The `useEffect` on `[sliderValue, useLogarithmic]` (App.jsx lines 22-43):
re-derives `velocity` from the current slider position and scale mode and
touches nothing else. -/
def applyVelocityEffect (s : SimState) : SimState :=
  { s with velocity := vmap s.useLogarithmic s.sliderValue }

/-- App.jsx lines 46-50, `handleSliderChange`: stores the new raw slider
value (the control pre-clamps it to [0,1]); nothing else is written. -/
def handleSliderChange (newValue : ℚ) (s : SimState) : SimState :=
  { s with sliderValue := newValue }

/-- App.jsx lines 53-58, `toggleScale`: flips the scale mode and resets the
slider to 0.5. -/
def toggleScale (s : SimState) : SimState :=
  { s with useLogarithmic := !s.useLogarithmic, sliderValue := 1/2 }

/-! ## Helper lemmas -/

/-- One tick with a timestamp no earlier than the stored baseline never
decreases the elapsed time. -/
theorem animate_elapsed_le (s : ClockState) (ts : ℚ) (h : s.lastTime ≤ ts) :
    s.elapsedTime ≤ (animate ts s).elapsedTime := by
  unfold animate
  by_cases h0 : s.lastTime = 0
  · simp [h0]
  · simp only [h0, if_false]
    have hd : 0 ≤ (ts - s.lastTime) / 1000 := by
      have : 0 ≤ ts - s.lastTime := by linarith
      positivity
    linarith

/-! ## Claim theorems -/

/-- Claim C1: for every velocity v in (0,1) the engine computes
gamma = 1 / sqrt(1 - v^2), the length-contraction factor times gamma is
exactly 1 (over the reals the floating-point tolerance is not needed), and
the time-dilation factor equals gamma definitionally. -/
theorem kinematics_factors_correct (v : ℝ) (h0 : 0 < v) (h1 : v < 1) :
    gamma v = 1 / Real.sqrt (1 - v ^ 2) ∧
    lengthContraction v * gamma v = 1 ∧
    timeDilation v = gamma v := by
  have hv2 : (0 : ℝ) < 1 - v * v := by nlinarith
  have hs : 0 < Real.sqrt (1 - v * v) := Real.sqrt_pos.mpr hv2
  have hg : 0 < gamma v := by
    unfold gamma
    exact div_pos one_pos hs
  refine ⟨by rw [gamma, pow_two], ?_, rfl⟩
  unfold lengthContraction
  exact one_div_mul_cancel (ne_of_gt hg)

/-- Witness for C1 at the concrete velocity v = 1/2. -/
theorem kinematics_factors_correct_witness :
    (0 : ℝ) < 1/2 ∧ (1/2 : ℝ) < 1 ∧
    (gamma (1/2) = 1 / Real.sqrt (1 - (1/2 : ℝ) ^ 2) ∧
     lengthContraction (1/2) * gamma (1/2) = 1 ∧
     timeDilation (1/2) = gamma (1/2)) :=
  ⟨by norm_num, by norm_num,
   kinematics_factors_correct (1/2) (by norm_num) (by norm_num)⟩

/-- Claim C2, evaluated at the claimed input: Start from the initial Idle
state, then ticks at timestamps 0, 1000, 2000 and 3000 milliseconds
(t = 0, 1, 2, 3 seconds). The code yields elapsedTime = 2, not the 3 the
claim states: the first tick carries timestamp 0, which is indistinguishable
from the cleared baseline sentinel, so the second tick also re-establishes
the baseline and contributes zero delta. -/
theorem clock_ticks_zero_timestamp_eval :
    (ticksRun [0, 1000, 2000, 3000] (toggleAnimation initialState)).elapsedTime = 2 ∧
    (ticksRun [0, 1000, 2000, 3000] (toggleAnimation initialState)).elapsedTime ≠ 3 := by
  constructor
  · norm_num [ticksRun, animate, toggleAnimation, initialState, List.foldl]
  · norm_num [ticksRun, animate, toggleAnimation, initialState, List.foldl]

/-- Counterexample to claim C3: the logarithmic map's velocity increment
from controlInput 0.8 to 0.9 is smaller, not larger, than the increment
from 0.4 to 0.5 (0.00014985 versus 0.00670329). -/
theorem log_map_resolution_counterexample :
    ¬(vmap true (9/10) - vmap true (8/10) > vmap true (1/2) - vmap true (2/5)) := by
  norm_num [vmap]

/-- Claim C3 as amended: the endpoints are 0.9 and 0.9999, the map equals
0.9 + 0.0999 * (1 - (1 - controlInput)^4), and the increment near the
asymptote is smaller than the mid-range increment (finer resolution means
smaller velocity steps per control step). -/
theorem log_map_endpoints_resolution :
    vmap true 0 = 9/10 ∧ vmap true 1 = 9999/10000 ∧
    vmap true (9/10) - vmap true (8/10) < vmap true (1/2) - vmap true (2/5) ∧
    ∀ x : ℚ, vmap true x = 9/10 + 999/10000 * (1 - (1 - x)^4) := by
  refine ⟨by norm_num [vmap], by norm_num [vmap], by norm_num [vmap], fun x => ?_⟩
  simp only [vmap, if_true]
  ring

/-- Claim C4: movingTime is the read-time quotient of the stored stationary
elapsed seconds by the time-dilation factor of the velocity current at the
read (it is a function, never a stored field), and at
elapsedStationarySeconds = 10 and v = 0.6 (gamma = 1.25) it equals 8. -/
theorem moving_time_derived_at_read :
    (∀ (s : ClockState) (v : ℝ), movingTime s v = (s.elapsedTime : ℝ) / timeDilation v) ∧
    movingTime ⟨10, false, 0⟩ (3/5) = 8 := by
  refine ⟨fun s v => rfl, ?_⟩
  unfold movingTime timeDilation gamma
  rw [show (1 - (3/5 : ℝ) * (3/5)) = (4/5) ^ 2 by norm_num,
    Real.sqrt_sq (by norm_num : (0:ℝ) ≤ 4/5)]
  norm_num

/-- Counterexample to claim C5: a Tick delivered while Idle is not a
state-preserving no-op — from the pristine Idle state, a tick carrying
timestamp 5 overwrites lastTickTimestamp with 5. -/
theorem idle_tick_not_noop :
    (animate 5 ⟨0, false, 0⟩).lastTime ≠ (⟨0, false, 0⟩ : ClockState).lastTime := by
  norm_num [animate]

/-- Claim C5 as amended: a Tick delivered while Idle with the baseline
cleared (lastTickTimestamp = 0, as Pause and Reset leave it) never raises
and leaves the running flag and elapsedStationarySeconds unchanged, but it
does record the tick's timestamp in lastTickTimestamp; and Start cannot be
invoked while Running — the single toggle handler performs Pause from the
Running state. -/
theorem misordered_transitions_amended (s t : ClockState) (ts : ℚ)
    (hs : s.isRunning = false) (hl : s.lastTime = 0) (ht : t.isRunning = true) :
    ((animate ts s).isRunning = false ∧
     (animate ts s).elapsedTime = s.elapsedTime ∧
     (animate ts s).lastTime = ts) ∧
    (toggleAnimation t).isRunning = false := by
  unfold animate toggleAnimation
  simp [hl, hs, ht]

/-- Witness for the amended C5 at concrete states: an Idle state with 7
accumulated seconds receiving a tick at timestamp 5, and a Running state
being toggled. -/
theorem misordered_transitions_amended_witness :
    ((⟨7, false, 0⟩ : ClockState).isRunning = false ∧
     (⟨7, false, 0⟩ : ClockState).lastTime = 0 ∧
     (⟨0, true, 3⟩ : ClockState).isRunning = true) ∧
    (((animate 5 ⟨7, false, 0⟩).isRunning = false ∧
      (animate 5 ⟨7, false, 0⟩).elapsedTime = (⟨7, false, 0⟩ : ClockState).elapsedTime ∧
      (animate 5 ⟨7, false, 0⟩).lastTime = 5) ∧
     (toggleAnimation ⟨0, true, 3⟩).isRunning = false) :=
  ⟨⟨rfl, rfl, rfl⟩, misordered_transitions_amended ⟨7, false, 0⟩ ⟨0, true, 3⟩ 5 rfl rfl rfl⟩

/-- Claim C6: one stray Tick delivered right after Pause leaves
elapsedStationarySeconds unchanged, whatever timestamp it carries and
whatever the prior run history — Pause clears lastTickTimestamp to 0, so the
stray tick only re-establishes a baseline with zero delta. -/
theorem stray_tick_after_pause (s : ClockState) (ts : ℚ) (h : s.isRunning = true) :
    (animate ts (toggleAnimation s)).elapsedTime = s.elapsedTime := by
  simp [toggleAnimation, animate, h]

/-- Witness for C6: a running clock with 3 accumulated seconds and baseline
42 is paused, then a stray tick at timestamp 9999 arrives. -/
theorem stray_tick_after_pause_witness :
    (⟨3, true, 42⟩ : ClockState).isRunning = true ∧
    (animate 9999 (toggleAnimation ⟨3, true, 42⟩)).elapsedTime =
      (⟨3, true, 42⟩ : ClockState).elapsedTime :=
  ⟨rfl, stray_tick_after_pause ⟨3, true, 42⟩ 9999 rfl⟩

/-- Claim C7: while running, the elapsed stationary seconds never decrease
across any sequence of Ticks whose timestamps are delivered in
non-decreasing order starting from the stored baseline — the engine applies
each reported delta unclamped, and with host time moving forward every delta
is non-negative (the first tick after a cleared baseline contributes zero). -/
theorem elapsed_monotone_while_running (s : ClockState) (l : List ℚ)
    (hrun : s.isRunning = true)
    (hchain : List.Chain (fun a b => a ≤ b) s.lastTime l) :
    s.elapsedTime ≤ (ticksRun l s).elapsedTime := by
  induction l generalizing s with
  | nil => simp [ticksRun]
  | cons ts rest ih =>
    cases hchain with
    | cons hle hchain =>
      have h1 := animate_elapsed_le s ts hle
      have h2 : (animate ts s).elapsedTime ≤ (ticksRun rest (animate ts s)).elapsedTime := by
        refine ih (animate ts s) ?_ ?_
        · simp [animate, hrun]
        · simpa [animate] using hchain
      calc s.elapsedTime ≤ (animate ts s).elapsedTime := h1
        _ ≤ (ticksRun rest (animate ts s)).elapsedTime := h2
        _ = (ticksRun (ts :: rest) s).elapsedTime := rfl

/-- Witness for C7: a fresh running clock receiving ticks at timestamps
1, 2, 3 milliseconds. -/
theorem elapsed_monotone_while_running_witness :
    (⟨0, true, 0⟩ : ClockState).isRunning = true ∧
    List.Chain (fun a b => a ≤ b) (⟨0, true, 0⟩ : ClockState).lastTime ([1, 2, 3] : List ℚ) ∧
    (⟨0, true, 0⟩ : ClockState).elapsedTime ≤ (ticksRun [1, 2, 3] ⟨0, true, 0⟩).elapsedTime := by
  have hc : List.Chain (fun a b => a ≤ b)
      (⟨0, true, 0⟩ : ClockState).lastTime ([1, 2, 3] : List ℚ) :=
    List.Chain.cons (by norm_num)
      (List.Chain.cons (by norm_num) (List.Chain.cons (by norm_num) List.Chain.nil))
  exact ⟨rfl, hc, elapsed_monotone_while_running ⟨0, true, 0⟩ [1, 2, 3] rfl hc⟩

/-- Claim C8: toggling the scale mode always resets the slider to 0.5, from
every prior slider position and in both directions, and the re-derived
velocity is the new mode's image of 0.5. -/
theorem toggle_scale_resets_midpoint (s : SimState) :
    (toggleScale s).sliderValue = 1/2 ∧
    (toggleScale s).useLogarithmic = !s.useLogarithmic ∧
    (applyVelocityEffect (toggleScale s)).velocity = vmap (!s.useLogarithmic) (1/2) :=
  ⟨rfl, rfl, rfl⟩

/-- Claim C9: switching from Linear to Logarithmic (from any consistent
prior position) re-derives the velocity as the logarithmic image of 0.5,
exactly 31797/32000 = 0.99365625 — above every linear-mode velocity (at most
0.9) and not the midpoint 0.94995 of the logarithmic range. -/
theorem linear_to_log_discontinuous_jump (s : SimState)
    (hm : s.useLogarithmic = false)
    (h0 : 0 ≤ s.sliderValue) (h1 : s.sliderValue ≤ 1)
    (hv : s.velocity = vmap false s.sliderValue) :
    (applyVelocityEffect (toggleScale s)).velocity = 31797/32000 ∧
    s.velocity ≤ 9/10 ∧
    (31797/32000 : ℚ) ≠ (9/10 + 9999/10000) / 2 := by
  refine ⟨?_, ?_, by norm_num⟩
  · have h : (applyVelocityEffect (toggleScale s)).velocity = vmap true (1/2) := by
      simp [applyVelocityEffect, toggleScale, hm]
    rw [h]
    norm_num [vmap]
  · rw [hv]
    simp only [vmap, Bool.false_eq_true, if_false]
    linarith

/-- Witness for C9: a linear-mode state with the slider at 1/4 and the
velocity consistent with it. -/
theorem linear_to_log_discontinuous_jump_witness :
    (⟨1/4, false, vmap false (1/4), ⟨0, false, 0⟩⟩ : SimState).useLogarithmic = false ∧
    (0 : ℚ) ≤ 1/4 ∧ (1/4 : ℚ) ≤ 1 ∧
    ((applyVelocityEffect
        (toggleScale ⟨1/4, false, vmap false (1/4), ⟨0, false, 0⟩⟩)).velocity = 31797/32000 ∧
     (⟨1/4, false, vmap false (1/4), ⟨0, false, 0⟩⟩ : SimState).velocity ≤ 9/10 ∧
     (31797/32000 : ℚ) ≠ (9/10 + 9999/10000) / 2) :=
  ⟨rfl, by norm_num, by norm_num,
   linear_to_log_discontinuous_jump ⟨1/4, false, vmap false (1/4), ⟨0, false, 0⟩⟩
     rfl (by norm_num) (by norm_num) rfl⟩

/-- Claim C10: a slider change followed by the velocity re-derivation effect
never touches the clock fields — elapsed seconds, the running flag and
lastTickTimestamp are all unchanged, whether the clock is Idle or Running. -/
theorem slider_change_preserves_clock (x : ℚ) (s : SimState) :
    (applyVelocityEffect (handleSliderChange x s)).clock = s.clock := rfl
